import Mathlib

/-!
Verification of the request-handling pipeline of the cancer-prediction HTTP
service (`src/server.js`): upload validation, decode/preprocess, inference,
classification policy, persistence, and response formatting.

The JavaScript service is shallowly embedded: each request is processed by a
pure function from the multipart form data, a per-request environment (the
fresh uuid, the timestamp, the model's output for the uploaded tensor, and
whether the log write succeeds), and the current state of the
`predictions.json` file, to an HTTP response together with the new file state.
Scores are modelled as rationals; JavaScript's `Math.max(...score)`, which is
`-Infinity` on an empty array, is modelled with `WithBot ℚ`.
-/

namespace CancerAPI

/-- The actual encoding of the uploaded bytes (as opposed to the declared
MIME type): a buffer is a well-formed JPEG, a well-formed PNG, or neither. -/
inductive ImageFormat where
  | jpeg
  | png
  | invalid
  deriving DecidableEq, Repr

/-- An uploaded file as multer presents it to the handler (`req.file`):
declared MIME type, byte length of the buffer, and the buffer's actual
encoding. -/
structure UploadedFile where
  mimetype : String
  size : Nat
  format : ImageFormat
  deriving DecidableEq, Repr

/-- One entry of `predictions.json`, built at src/server.js lines 100-105. -/
structure PredictionRecord where
  id : String
  result : String
  suggestion : String
  createdAt : String
  deriving DecidableEq, Repr

/-- The state of the `predictions.json` file: absent, present with empty
content, present with unparseable content, or present holding a JSON array
of records. -/
inductive LogFile where
  | missing
  | empty
  | corrupt
  | records (l : List PredictionRecord)
  deriving DecidableEq, Repr

/-- Per-request environment: the fresh `uuidv4()`, the
`new Date().toISOString()` timestamp, the outcome of running the opaque model
on the decoded tensor (`model.predict` followed by `prediction.data()`), and
whether `fs.writeFileSync` on `predictions.json` throws for this request. -/
structure Env where
  newId : String
  now : String
  inference : Except String (List ℚ)
  writeFails : Bool

/-- A JSON response as sent by the handler: HTTP status code, the `status`
field, the `message` field, and the optional `data` field. -/
structure HttpResponse where
  code : Nat
  status : String
  message : String
  data : Option PredictionRecord
  deriving DecidableEq, Repr

/-- `allowedTypes` of the multer `fileFilter` (src/server.js line 12). -/
def allowedTypes : List String := ["image/jpeg", "image/png"]

/-- Outcome of the multer `upload` middleware (src/server.js lines 9-19):
a `MulterError` (the configured `fileSize` limit of 1000000 bytes was
exceeded), a plain error from the `fileFilter` (disallowed MIME type), or
success with `req.file` (none when the form carried no `image` file field). -/
inductive MulterOutcome where
  | limitError
  | filterError (msg : String)
  | ok (file : Option UploadedFile)
  deriving DecidableEq, Repr

/-- The multer middleware configured at src/server.js lines 9-19: no file
field passes through with `req.file` undefined; multer invokes the
`fileFilter` on the file part's headers before any content is streamed, so a
file whose MIME type is not in `allowedTypes` is rejected with the error
built at line 16 regardless of its size; only a filter-accepted file can
then trip the `fileSize` limit of 1000000 bytes, which yields a
`MulterError`; otherwise the file is accepted. -/
def multerUpload (form : Option UploadedFile) : MulterOutcome :=
  match form with
  | none => .ok none
  | some f =>
    if allowedTypes.contains f.mimetype then
      if 1000000 < f.size then
        .limitError
      else
        .ok (some f)
    else
      .filterError "Invalid file type. Only JPEG and PNG are allowed."

/-- `tf.node.decodeJpeg` (src/server.js line 49): decodes a JPEG-encoded
buffer; throws on any buffer that is not a well-formed JPEG, including a
well-formed PNG. The resulting tensor is abstracted away (the subsequent
`resizeNearestNeighbor`, `expandDims` and `toFloat` always succeed and the
tensor is only ever passed to the opaque model, whose output is supplied by
`Env.inference`). -/
def decodeJpeg : ImageFormat → Except String Unit
  | .jpeg => .ok ()
  | .png => .error "the provided buffer is not a valid jpeg image"
  | .invalid => .error "the provided buffer is not a valid jpeg image"

/-- `Math.max(...score)` (src/server.js line 56): the maximum of a score
vector, `-Infinity` (here `⊥`) on the empty vector. -/
def maxScore : List ℚ → WithBot ℚ
  | [] => ⊥
  | s :: rest => max (↑s) (maxScore rest)

/-- `const confidenceScore = Math.max(...score) * 100` (src/server.js
line 56). -/
def confidenceScore (score : List ℚ) : WithBot ℚ :=
  (maxScore score).map (fun m => m * 100)

/-- `const isCancer = confidenceScore > 50` (src/server.js line 58). -/
def isCancer (score : List ℚ) : Bool :=
  decide ((50 : WithBot ℚ) < confidenceScore score)

/-- The classification policy of src/server.js lines 56-64: label and
suggestion from the score vector. -/
def decideLabel (score : List ℚ) : String × String :=
  if isCancer score then
    ("Cancer", "Segera periksa ke dokter!")
  else
    ("Non-cancer", "Penyakit kanker tidak terdeteksi.")

/-- `predictClassification` (src/server.js lines 46-68): decode the buffer
with `tf.node.decodeJpeg`, run the model, apply the threshold policy; any
error thrown inside is caught and rethrown with the internal detail
interpolated into `Terjadi kesalahan input: ...`. -/
def predictClassification (format : ImageFormat)
    (inference : Except String (List ℚ)) : Except String (String × String) :=
  match decodeJpeg format with
  | .error e => .error ("Terjadi kesalahan input: " ++ e)
  | .ok _ =>
    match inference with
    | .error e => .error ("Terjadi kesalahan input: " ++ e)
    | .ok score => .ok (decideLabel score)

/-- `JSON.parse(fs.readFileSync('predictions.json', 'utf-8') || '[]')`
(src/server.js line 108): `fs.readFileSync` throws `ENOENT` when the file is
missing (the `|| '[]'` fallback is never reached); an existing file with
empty content reads as `''`, which is falsy, so `'[]'` is parsed instead;
unparseable content makes `JSON.parse` throw; otherwise the stored array is
returned. -/
def readLog : LogFile → Except String (List PredictionRecord)
  | .missing => .error "ENOENT: no such file or directory"
  | .empty => .ok []
  | .corrupt => .error "Unexpected token in JSON"
  | .records l => .ok l

/-- The records currently stored in `predictions.json` (none when the file
is missing, empty or unparseable). -/
def logRecords : LogFile → List PredictionRecord
  | .records l => l
  | _ => []

/-- The `POST /predict` handler (src/server.js lines 71-127): run the multer
middleware, mapping a `MulterError` to 413 with the fixed size message and a
`fileFilter` error to 400 with that error's message; reject a request with
no file as 400 `No file uploaded`; otherwise run `predictClassification`,
build the record from the fresh uuid and timestamp, read the whole log,
append the record, write the whole log back, and respond 201 with the
success envelope; any error thrown in the try block (decode, inference, log
read, log write) is caught and answered with 400 and the fixed message
`Terjadi kesalahan dalam melakukan prediksi`, leaving the file as it was. -/
def handlePredict (form : Option UploadedFile) (env : Env) (log : LogFile) :
    HttpResponse × LogFile :=
  match multerUpload form with
  | .limitError =>
      ({ code := 413, status := "fail",
         message := "Payload content length greater than maximum allowed: 1000000",
         data := none }, log)
  | .filterError m =>
      ({ code := 400, status := "fail", message := m, data := none }, log)
  | .ok none =>
      ({ code := 400, status := "fail", message := "No file uploaded",
         data := none }, log)
  | .ok (some f) =>
      match predictClassification f.format env.inference with
      | .error _ =>
          ({ code := 400, status := "fail",
             message := "Terjadi kesalahan dalam melakukan prediksi",
             data := none }, log)
      | .ok ls =>
          let doc : PredictionRecord :=
            { id := env.newId, result := ls.1, suggestion := ls.2,
              createdAt := env.now }
          match readLog log with
          | .error _ =>
              ({ code := 400, status := "fail",
                 message := "Terjadi kesalahan dalam melakukan prediksi",
                 data := none }, log)
          | .ok l =>
              if env.writeFails then
                ({ code := 400, status := "fail",
                   message := "Terjadi kesalahan dalam melakukan prediksi",
                   data := none }, log)
              else
                ({ code := 201, status := "success",
                   message := "Model is predicted successfully",
                   data := some doc }, .records (l ++ [doc]))

/-- One request as the handler sees it: the form data and the per-request
environment. -/
structure RequestInput where
  form : Option UploadedFile
  env : Env

/-- Process a sequence of requests against the log file, collecting the
`data` payloads of the 201 responses along the way. -/
def runRequests : List RequestInput → LogFile → LogFile × List PredictionRecord
  | [], log => (log, [])
  | r :: rs, log =>
      ((runRequests rs (handlePredict r.form r.env log).2).1,
       (if (handlePredict r.form r.env log).1.code = 201 then
          (handlePredict r.form r.env log).1.data.toList
        else []) ++ (runRequests rs (handlePredict r.form r.env log).2).2)

/-- An observable event of process startup. -/
inductive StartupEvent where
  | bind (port : Nat)
  | modelLoaded
  | processExit
  deriving DecidableEq, Repr

/-- Whether a startup event is the server binding a port. -/
def isBind : StartupEvent → Bool
  | .bind _ => true
  | _ => false

/-- The startup sequence of src/server.js lines 144-149:
`app.listen(PORT, cb)` binds the port and only then invokes the callback,
which awaits `loadModel` (lines 34-43); `loadModel` calls
`process.exit(1)` when `tf.loadGraphModel` fails. -/
def startupTrace (loadSucceeds : Bool) (port : Nat) : List StartupEvent :=
  .bind port :: (if loadSucceeds then [.modelLoaded] else [.processExit])

/-! ### Helper lemmas -/

theorem maxScore_singleton (q : ℚ) : maxScore [q] = (q : WithBot ℚ) := by
  simp [maxScore]

theorem confidenceScore_singleton (q : ℚ) :
    confidenceScore [q] = ((q * 100 : ℚ) : WithBot ℚ) := by
  simp [confidenceScore, maxScore_singleton, WithBot.map_coe]

theorem coe_fifty : ((50 : ℚ) : WithBot ℚ) = (50 : WithBot ℚ) := by
  norm_cast

theorem isCancer_singleton (q : ℚ) :
    isCancer [q] = decide ((50 : ℚ) < q * 100) := by
  simp only [isCancer, confidenceScore_singleton, ← coe_fifty,
    WithBot.coe_lt_coe]

theorem logRecords_of_readLog_ok (log : LogFile) (l : List PredictionRecord)
    (h : readLog log = .ok l) : logRecords log = l := by
  cases log with
  | missing => simp [readLog] at h
  | empty => simp [readLog] at h; simp [logRecords, h]
  | corrupt => simp [readLog] at h
  | records l2 => simp [readLog] at h; simp [logRecords, h]

theorem handlePredict_code_or_unchanged (form : Option UploadedFile)
    (env : Env) (log : LogFile) :
    (handlePredict form env log).1.code = 201 ∨
      ((handlePredict form env log).2 = log ∧
        (handlePredict form env log).1.data = none) := by
  unfold handlePredict
  cases hmu : multerUpload form with
  | limitError => simp
  | filterError m => simp
  | ok o =>
    cases o with
    | none => simp
    | some f =>
      cases hpc : predictClassification f.format env.inference with
      | error e => simp [hpc]
      | ok ls =>
        cases hrl : readLog log with
        | error e => simp [hpc, hrl]
        | ok l =>
          cases hw : env.writeFails <;> simp [hpc, hrl, hw]

theorem logRecords_handlePredict (form : Option UploadedFile)
    (env : Env) (log : LogFile) :
    logRecords (handlePredict form env log).2
      = logRecords log ++ ((handlePredict form env log).1.data).toList := by
  unfold handlePredict
  cases hmu : multerUpload form with
  | limitError => simp
  | filterError m => simp
  | ok o =>
    cases o with
    | none => simp
    | some f =>
      cases hpc : predictClassification f.format env.inference with
      | error e => simp [hpc]
      | ok ls =>
        cases hrl : readLog log with
        | error e => simp [hpc, hrl]
        | ok l =>
          cases hw : env.writeFails with
          | true => simp [hpc, hrl, hw]
          | false =>
            have hlg := logRecords_of_readLog_ok log l hrl
            subst hlg
            simp [hpc, hrl, hw, logRecords]

/-! ### Claim theorems -/

/-- Claim C2: the classification policy is a deterministic function of the score
vector: whenever `max(scores) * 100 > 50` it returns the label `Cancer` with
the urgent-care suggestion, otherwise (in particular at a confidence of
exactly 50) the label `Non-cancer` with the not-detected suggestion, and
equal score vectors always yield equal (label, suggestion) pairs. -/
theorem classification_policy_threshold (score : List ℚ) :
    ((50 : WithBot ℚ) < confidenceScore score →
      decideLabel score = ("Cancer", "Segera periksa ke dokter!")) ∧
    (confidenceScore score ≤ (50 : WithBot ℚ) →
      decideLabel score = ("Non-cancer", "Penyakit kanker tidak terdeteksi.")) ∧
    (confidenceScore score = (50 : WithBot ℚ) →
      decideLabel score = ("Non-cancer", "Penyakit kanker tidak terdeteksi.")) ∧
    (∀ t : List ℚ, score = t → decideLabel score = decideLabel t) := by
  refine ⟨fun h => ?_, fun h => ?_, fun h => ?_, fun t h => by rw [h]⟩
  · simp [decideLabel, isCancer, h]
  · simp [decideLabel, isCancer, not_lt.mpr h]
  · simp [decideLabel, isCancer, h]

/-- Claim C2 witness: a score vector whose confidence is exactly 50 is
classified `Non-cancer` with the not-detected suggestion. -/
theorem classification_policy_threshold_witness :
    decideLabel [1/2] = ("Non-cancer", "Penyakit kanker tidak terdeteksi.") :=
  (classification_policy_threshold [1/2]).2.2.1
    (by rw [confidenceScore_singleton, ← coe_fifty]; norm_num)

/-- Claim C1: for a request carrying a JPEG file of at most 1,000,000 bytes
whose buffer is a well-formed JPEG, whose inference succeeds and whose log
read and write succeed, `POST /predict` answers 201 with the success
envelope (`status = success`, `message = Model is predicted successfully`,
`data` = the new record), and the new record is appended at the end of the
log, whose length grows by exactly one. -/
theorem predict_success_responds_201_and_appends_one
    (f : UploadedFile) (env : Env) (log : LogFile) (score : List ℚ)
    (l : List PredictionRecord)
    (hmime : f.mimetype = "image/jpeg")
    (hsize : f.size ≤ 1000000)
    (hfmt : f.format = ImageFormat.jpeg)
    (hinf : env.inference = .ok score)
    (hread : readLog log = .ok l)
    (hwrite : env.writeFails = false) :
    (handlePredict (some f) env log).1
      = { code := 201, status := "success",
          message := "Model is predicted successfully",
          data := some { id := env.newId, result := (decideLabel score).1,
                         suggestion := (decideLabel score).2,
                         createdAt := env.now } } ∧
    (handlePredict (some f) env log).2
      = .records (logRecords log ++
          [{ id := env.newId, result := (decideLabel score).1,
             suggestion := (decideLabel score).2, createdAt := env.now }]) ∧
    (logRecords (handlePredict (some f) env log).2).length
      = (logRecords log).length + 1 := by
  have hmu : multerUpload (some f) = .ok (some f) := by
    simp [multerUpload, allowedTypes, hmime, Nat.not_lt.mpr hsize]
  have hpc : predictClassification f.format env.inference
      = .ok (decideLabel score) := by
    rw [hfmt, hinf]; rfl
  have hlg := logRecords_of_readLog_ok log l hread
  subst hlg
  simp [handlePredict, hmu, hpc, hread, hwrite, logRecords]

/-- Claim C1 witness: a concrete 500-byte JPEG upload with a successful
inference against an empty log file yields the 201 success envelope and a
one-record log. -/
theorem predict_success_responds_201_and_appends_one_witness :
    (handlePredict (some ⟨"image/jpeg", 500, .jpeg⟩)
        ⟨"id-1", "t0", Except.ok [1], false⟩ .empty).1
      = { code := 201, status := "success",
          message := "Model is predicted successfully",
          data := some { id := "id-1", result := (decideLabel [1]).1,
                         suggestion := (decideLabel [1]).2,
                         createdAt := "t0" } } ∧
    (handlePredict (some ⟨"image/jpeg", 500, .jpeg⟩)
        ⟨"id-1", "t0", Except.ok [1], false⟩ .empty).2
      = .records (logRecords .empty ++
          [{ id := "id-1", result := (decideLabel [1]).1,
             suggestion := (decideLabel [1]).2, createdAt := "t0" }]) ∧
    (logRecords (handlePredict (some ⟨"image/jpeg", 500, .jpeg⟩)
        ⟨"id-1", "t0", Except.ok [1], false⟩ .empty).2).length
      = (logRecords .empty).length + 1 :=
  predict_success_responds_201_and_appends_one
    ⟨"image/jpeg", 500, .jpeg⟩ ⟨"id-1", "t0", Except.ok [1], false⟩
    .empty [1] [] rfl (by decide) rfl rfl rfl rfl

/-- Claim C8: a `POST /predict` request carrying no file field named `image`
is answered 400 with `status = fail` and message `No file uploaded`, and the
log file is unchanged. -/
theorem missing_file_field_400 (env : Env) (log : LogFile) :
    handlePredict none env log
      = ({ code := 400, status := "fail", message := "No file uploaded",
           data := none }, log) := by
  simp [handlePredict, multerUpload]

/-- Claim C7 (counterexample): not every upload over 1,000,000 bytes is
answered 413 — a 2,000,000-byte upload declared `image/gif` is rejected by
the multer `fileFilter` before the size limit can fire, giving 400 with the
filter's `Invalid file type` message instead of the claimed 413. -/
theorem oversized_gif_gets_filter_error :
    handlePredict (some ⟨"image/gif", 2000000, .invalid⟩)
        ⟨"id-1", "t0", Except.ok [1], false⟩ .empty
      = ({ code := 400, status := "fail",
           message := "Invalid file type. Only JPEG and PNG are allowed.",
           data := none }, .empty) ∧
    (handlePredict (some ⟨"image/gif", 2000000, .invalid⟩)
        ⟨"id-1", "t0", Except.ok [1], false⟩ .empty).1.code ≠ 413 := by
  exact ⟨rfl, by decide⟩

/-- Claim C7 (amended): an upload whose declared MIME type is allowed
(`image/jpeg` or `image/png`) and whose payload exceeds 1,000,000 bytes is
answered 413 with `status = fail` and the fixed message naming the
configured maximum, and the log file is unchanged. -/
theorem oversized_allowed_payload_413 (f : UploadedFile) (env : Env)
    (log : LogFile)
    (hmime : allowedTypes.contains f.mimetype = true)
    (h : 1000000 < f.size) :
    handlePredict (some f) env log
      = ({ code := 413, status := "fail",
           message := "Payload content length greater than maximum allowed: 1000000",
           data := none }, log) := by
  have hmem : f.mimetype ∈ allowedTypes := by simpa using hmime
  simp [handlePredict, multerUpload, hmem, h]

/-- Claim C7 (amended) witness: a concrete 2,000,000-byte JPEG upload is
answered 413 with the fixed message, leaving the empty log file
unchanged. -/
theorem oversized_allowed_payload_413_witness :
    handlePredict (some ⟨"image/jpeg", 2000000, .jpeg⟩)
        ⟨"id-1", "t0", Except.ok [1], false⟩ .empty
      = ({ code := 413, status := "fail",
           message := "Payload content length greater than maximum allowed: 1000000",
           data := none }, .empty) :=
  oversized_allowed_payload_413 ⟨"image/jpeg", 2000000, .jpeg⟩
    ⟨"id-1", "t0", Except.ok [1], false⟩ .empty rfl (by decide)

/-- Claim C3 (code refutation): a 500-byte upload whose buffer is a
well-formed PNG and whose declared MIME type `image/png` passes the file
filter is nevertheless answered 400 with the generic prediction-failure
message and no appended record — `tf.node.decodeJpeg` throws on PNG bytes —
even though the model would have output a max score of 0.3. -/
theorem png_upload_rejected_by_decoder :
    handlePredict (some ⟨"image/png", 500, .png⟩)
        ⟨"id-1", "t0", Except.ok [3/10], false⟩ .empty
      = ({ code := 400, status := "fail",
           message := "Terjadi kesalahan dalam melakukan prediksi",
           data := none }, .empty) := rfl

/-- Claim C5 (code refutation): when the log file is absent, a request whose
decode and inference succeed still fails — `fs.readFileSync` throws `ENOENT`
before the `|| '[]'` fallback can apply — so the append does not succeed and
no one-record log is produced: the handler answers 400 and the file stays
missing. -/
theorem append_on_missing_log_file_fails :
    handlePredict (some ⟨"image/jpeg", 500, .jpeg⟩)
        ⟨"id-1", "t0", Except.ok [4/5], false⟩ .missing
      = ({ code := 400, status := "fail",
           message := "Terjadi kesalahan dalam melakukan prediksi",
           data := none }, .missing) := rfl

/-- Claim C9: when decoding or inference throws, `POST /predict` answers 400
with `status = fail` and the fixed generic message
`Terjadi kesalahan dalam melakukan prediksi`; the response is the same
constant for every internal error text, so no internal detail reaches the
client, and the log file is unchanged. -/
theorem decode_inference_failure_generic_400
    (f : UploadedFile) (env : Env) (log : LogFile)
    (hmime : allowedTypes.contains f.mimetype = true)
    (hsize : f.size ≤ 1000000)
    (h : f.format ≠ ImageFormat.jpeg ∨ ∃ e, env.inference = .error e) :
    (handlePredict (some f) env log).1
      = { code := 400, status := "fail",
          message := "Terjadi kesalahan dalam melakukan prediksi",
          data := none } ∧
    (handlePredict (some f) env log).2 = log := by
  have hmu : multerUpload (some f) = .ok (some f) := by
    have hmem : f.mimetype ∈ allowedTypes := by simpa using hmime
    simp [multerUpload, hmem, Nat.not_lt.mpr hsize]
  have hpc : ∃ e2, predictClassification f.format env.inference
      = .error e2 := by
    rcases h with hfmt | ⟨e, he⟩
    · cases hf : f.format with
      | jpeg => exact absurd hf hfmt
      | png => exact ⟨_, rfl⟩
      | invalid => exact ⟨_, rfl⟩
    · rw [he]
      cases f.format <;> exact ⟨_, rfl⟩
  obtain ⟨e2, hpc⟩ := hpc
  simp [handlePredict, hmu, hpc]

/-- Claim C9 witness: an allowed-type 400-byte upload whose buffer is not a
valid image is answered 400 with the fixed generic message and an unchanged
log file. -/
theorem decode_inference_failure_generic_400_witness :
    (handlePredict (some ⟨"image/jpeg", 400, .invalid⟩)
        ⟨"id-1", "t0", Except.ok [], false⟩ .empty).1
      = { code := 400, status := "fail",
          message := "Terjadi kesalahan dalam melakukan prediksi",
          data := none } ∧
    (handlePredict (some ⟨"image/jpeg", 400, .invalid⟩)
        ⟨"id-1", "t0", Except.ok [], false⟩ .empty).2 = .empty :=
  decode_inference_failure_generic_400
    ⟨"image/jpeg", 400, .invalid⟩ ⟨"id-1", "t0", Except.ok [], false⟩
    .empty rfl (by decide) (Or.inl (by decide))

/-- Claim C10: when inference succeeds but reading or writing
`predictions.json` throws, `POST /predict` answers 400 with `status = fail`
and the same generic prediction-failure message — the 201 success envelope
is never sent — and the log file is left unchanged. -/
theorem persistence_failure_fail_closed
    (f : UploadedFile) (env : Env) (log : LogFile) (score : List ℚ)
    (hmime : allowedTypes.contains f.mimetype = true)
    (hsize : f.size ≤ 1000000)
    (hfmt : f.format = ImageFormat.jpeg)
    (hinf : env.inference = .ok score)
    (h : (∃ e, readLog log = .error e) ∨ env.writeFails = true) :
    (handlePredict (some f) env log).1
      = { code := 400, status := "fail",
          message := "Terjadi kesalahan dalam melakukan prediksi",
          data := none } ∧
    (handlePredict (some f) env log).2 = log := by
  have hmu : multerUpload (some f) = .ok (some f) := by
    have hmem : f.mimetype ∈ allowedTypes := by simpa using hmime
    simp [multerUpload, hmem, Nat.not_lt.mpr hsize]
  have hpc : predictClassification f.format env.inference
      = .ok (decideLabel score) := by
    rw [hfmt, hinf]; rfl
  rcases h with ⟨e, he⟩ | hw
  · simp [handlePredict, hmu, hpc, he]
  · cases hrl : readLog log with
    | error e => simp [handlePredict, hmu, hpc, hrl]
    | ok l => simp [handlePredict, hmu, hpc, hrl, hw]

/-- Claim C10 witness: a valid JPEG request with successful inference
against a missing log file is answered 400 with the generic message and the
file stays missing. -/
theorem persistence_failure_fail_closed_witness :
    (handlePredict (some ⟨"image/jpeg", 500, .jpeg⟩)
        ⟨"id-1", "t0", Except.ok [1], false⟩ .missing).1
      = { code := 400, status := "fail",
          message := "Terjadi kesalahan dalam melakukan prediksi",
          data := none } ∧
    (handlePredict (some ⟨"image/jpeg", 500, .jpeg⟩)
        ⟨"id-1", "t0", Except.ok [1], false⟩ .missing).2 = .missing :=
  persistence_failure_fail_closed
    ⟨"image/jpeg", 500, .jpeg⟩ ⟨"id-1", "t0", Except.ok [1], false⟩
    .missing [1] rfl (by decide) rfl rfl (Or.inl ⟨_, rfl⟩)

/-- Claim C6: over every request sequence, the records stored in
`predictions.json` are exactly the initial records followed by the `data`
payloads of the 201 responses (one record per successful inference), and a
request answered with any status other than 201 leaves the log file
unchanged. -/
theorem log_records_only_from_successful_requests
    (reqs : List RequestInput) (log : LogFile) :
    logRecords (runRequests reqs log).1
      = logRecords log ++ (runRequests reqs log).2 ∧
    ∀ (form : Option UploadedFile) (env : Env),
      (handlePredict form env log).1.code ≠ 201 →
        (handlePredict form env log).2 = log := by
  constructor
  · induction reqs generalizing log with
    | nil => simp [runRequests]
    | cons r rs ih =>
      simp only [runRequests]
      have h1 := logRecords_handlePredict r.form r.env log
      have h2 := ih (handlePredict r.form r.env log).2
      by_cases hc : (handlePredict r.form r.env log).1.code = 201
      · simp [hc, h2, h1, List.append_assoc]
      · rcases handlePredict_code_or_unchanged r.form r.env log with
          hc2 | ⟨hunch, hdata⟩
        · exact absurd hc2 hc
        · simp [hc, h2, h1, hdata]
  · intro form env hne
    rcases handlePredict_code_or_unchanged form env log with hc | ⟨hunch, _⟩
    · exact absurd hc hne
    · exact hunch

/-- Claim C6 witness: a concrete failing request (no file field) against an
empty log file leaves it unchanged. -/
theorem log_records_only_from_successful_requests_witness :
    (handlePredict none ⟨"id-1", "t0", Except.ok [], false⟩ .empty).2
      = .empty :=
  (log_records_only_from_successful_requests [] .empty).2 none
    ⟨"id-1", "t0", Except.ok [], false⟩ (by decide)

/-- Claim C4 (counterexample): with the startup sequence of
src/server.js lines 144-149, when model loading fails the process does not
exit before the port is bound: at port 3000 the trace is the bind followed
by the exit, so no `processExit` event precedes the first bind event. -/
theorem model_load_failure_exits_after_bind :
    startupTrace false 3000 = [.bind 3000, .processExit] ∧
    ¬ (StartupEvent.processExit ∈
        (startupTrace false 3000).takeWhile (fun e => !(isBind e))) := by
  exact ⟨rfl, by decide⟩

/-- Claim C4 (amended): `app.listen` binds the configured port first and the
model is only loaded afterwards, inside the listen callback; when loading
succeeds the trace is bind then model-loaded, and when loading fails the
process exits only after the port has been bound. -/
theorem listen_binds_before_model_load (port : Nat) (ok : Bool) :
    (startupTrace ok port).head? = some (.bind port) ∧
    (ok = false → startupTrace ok port = [.bind port, .processExit]) ∧
    (ok = true → startupTrace ok port = [.bind port, .modelLoaded]) := by
  cases ok <;> simp [startupTrace]

/-- Claim C4 (amended) witness: at port 3000 with a failing model load, the
trace starts with the bind and then exits. -/
theorem listen_binds_before_model_load_witness :
    (startupTrace false 3000).head? = some (.bind 3000) ∧
    startupTrace false 3000 = [.bind 3000, .processExit] :=
  ⟨(listen_binds_before_model_load 3000 false).1,
   (listen_binds_before_model_load 3000 false).2.1 rfl⟩

end CancerAPI
